import Mathlib

/-!
Verification development for the PaperSuRF repository.

The Python sources (`papersurf/command_line.py`, `papersurf/analysis.py`,
`papersurf/paper.py`) are shallowly embedded below.  Python strings are
modelled as `String` / `List Char`, the Neo4j graph store as an explicit
record of association lists, and the external dependencies (sentence
transformer, keyword extractor, cosine similarity, PDF parser, filesystem)
as function parameters supplied by the caller, mirroring how the code
treats them as opaque third-party services.
-/

/-! ## Python string helpers -/

/-- Whitespace characters recognised by Python `str.split` / `str.strip`
(ASCII fragment). -/
def pyIsSpace (c : Char) : Bool :=
  c = ' ' || c = '\t' || c = '\n' || c = '\r' || c = Char.ofNat 11 || c = Char.ofNat 12

/-- Python `str.lower` (ASCII). -/
def pyLower (s : List Char) : List Char :=
  s.map Char.toLower

/-- Python `str.strip()` with no argument: drop whitespace at both ends. -/
def pyStripWs (s : List Char) : List Char :=
  ((s.dropWhile pyIsSpace).reverse.dropWhile pyIsSpace).reverse

/-- Python `str.rstrip(set)`: drop trailing characters belonging to `set`. -/
def pyRstrip (set s : List Char) : List Char :=
  (s.reverse.dropWhile (fun c => set.contains c)).reverse

/-- Python `str.split(maxsplit := m)` on whitespace: at most `m` splits are
performed, the remainder (with leading whitespace removed) is kept whole. -/
def pySplit : Nat → List Char → List (List Char)
  | m, s =>
    match m, s.dropWhile pyIsSpace with
    | _, [] => []
    | 0, t => [t]
    | m' + 1, t =>
      t.takeWhile (fun c => !pyIsSpace c) ::
        pySplit m' (t.dropWhile (fun c => !pyIsSpace c))

/-! ## Input length limiting (`CommandLineInterface.input_limit_length`) -/

/-- Field `self.max_character_limit` set in `CommandLineInterface.__init__`. -/
def max_character_limit : Nat := 100

/-- Callback `input_limit_length`: truncate the buffer text to the first
`max_character_limit` characters whenever it is longer. -/
def input_limit_length (text : List Char) : List Char :=
  if text.length > max_character_limit then text.take max_character_limit else text

/-! ## DOI extraction (`papers_load` in `command_line.py`)

The regular expression `(?:doi:\s*)?(10\.\d{4,9}/[-._;()/:a-zA-Z0-9_]+)` with
`re.IGNORECASE` is embedded directly: `searchDOI` scans positions from the
left (as `re.search` does) and returns the whole match together with the
first capture group. -/

/-- Characters of the class `[-._;()/:a-zA-Z0-9_]`. -/
def doiBodyChar (c : Char) : Bool :=
  c = '-' || c = '.' || c = '_' || c = ';' || c = '(' || c = ')' || c = '/' ||
    c = ':' || c.isAlpha || c.isDigit

/-- Match the capture group `10\.\d{4,9}/[-._;()/:a-zA-Z0-9_]+` at the head
of the input; returns the matched characters.  The digit run is maximal
(greedy `\d{4,9}` followed by the mandatory `/` makes backtracking
pointless), and the body is the maximal nonempty run of class characters. -/
def matchDOIcore : List Char → Option (List Char)
  | '1' :: '0' :: '.' :: rest =>
    let ds := rest.takeWhile Char.isDigit
    let rest2 := rest.dropWhile Char.isDigit
    if 4 ≤ ds.length ∧ ds.length ≤ 9 then
      match rest2 with
      | '/' :: rest3 =>
        let body := rest3.takeWhile doiBodyChar
        if 1 ≤ body.length then
          some ('1' :: '0' :: '.' :: (ds ++ '/' :: body))
        else none
      | _ => none
    else none
  | _ => none

/-- Match the optional marker `doi:\s*` (case-insensitive) at the head of the
input; returns the number of characters it consumes. -/
def matchDoiMarker : List Char → Option Nat
  | c1 :: c2 :: c3 :: c4 :: rest =>
    if c1.toLower = 'd' ∧ c2.toLower = 'o' ∧ c3.toLower = 'i' ∧ c4 = ':' then
      some (4 + (rest.takeWhile pyIsSpace).length)
    else none
  | _ => none

/-- Try the full pattern at the current position.  The optional marker is
greedy: the marker-plus-group alternative is attempted first and the bare
group is the backtracking fallback.  Returns `(group 0, group 1)`. -/
def tryMatchAt (s : List Char) : Option (List Char × List Char) :=
  match matchDoiMarker s with
  | some n =>
    match matchDOIcore (s.drop n) with
    | some core => some (s.take n ++ core, core)
    | none => (matchDOIcore s).map (fun c => (c, c))
  | none => (matchDOIcore s).map (fun c => (c, c))

/-- Model of `re.search(doi_pattern, s, flags=re.IGNORECASE)`: leftmost
position at which the pattern matches; returns `(group 0, group 1)`. -/
def searchDOI : List Char → Option (List Char × List Char)
  | [] => none
  | c :: rest =>
    match tryMatchAt (c :: rest) with
    | some r => some r
    | none => searchDOI rest

/-- Characters stripped from the end of a raw DOI match by
`rstrip(".,;()[]!?\"'")`.  The last two entries are the double quote and
the apostrophe. -/
def rstripSet : List Char :=
  ['.', ',', ';', '(', ')', '[', ']', '!', '?', Char.ofNat 34, Char.ofNat 39]

/-- Python `str.replace("doi:", "")`: remove every occurrence of the literal
lowercase marker, scanning left to right without rescanning output. -/
def replaceDoiMarker : List Char → List Char
  | 'd' :: 'o' :: 'i' :: ':' :: rest => replaceDoiMarker rest
  | c :: rest => c :: replaceDoiMarker rest
  | [] => []

/-- DOI assignment of `papers_load`: search the text; on a match store a
link built from capture group 1 (trailing punctuation stripped); otherwise
search the title and build the link from the whole match (group 0) with
trailing punctuation stripped, lowercase `doi:` occurrences removed and
surrounding whitespace stripped; otherwise store `"NO PROVIDED DOI"`. -/
def extractDOI (text title : List Char) : String :=
  match searchDOI text with
  | some (_, g1) => "https://doi.org/" ++ String.mk (pyRstrip rstripSet g1)
  | none =>
    match searchDOI title with
    | some (g0, _) =>
      "https://doi.org/" ++ String.mk (pyStripWs (replaceDoiMarker (pyRstrip rstripSet g0)))
    | none => "NO PROVIDED DOI"

/-- Reading of claim C10, which differs from the source on the title path:
it uses the first substring matching the bare DOI pattern (capture group 1)
there as well. -/
def extractDOIClaimed (text title : List Char) : String :=
  match searchDOI text with
  | some (_, g1) => "https://doi.org/" ++ String.mk (pyRstrip rstripSet g1)
  | none =>
    match searchDOI title with
    | some (_, g1) => "https://doi.org/" ++ String.mk (pyRstrip rstripSet g1)
    | none => "NO PROVIDED DOI"

/-! ## Papers (`paper.py`) and the per-paper ingestion step -/

/-- In-memory paper, mirroring `Paper.__init__` in `paper.py` together with
the fields assigned by `Paper.load`.  The source initialises `doi` to an
empty list; `papers_load` overwrites it with a string on every path, so it
is modelled as a string here. -/
structure Paper where
  path : String := ""
  filename : String := ""
  year : String := ""
  title : String := ""
  author : String := ""
  subject : String := ""
  text : String := ""
  topics : List String := []
  main_keyphrase : String := "No keyphrase"
  doi : String := ""
deriving DecidableEq

/-- Outcome of the external PDF parser (`pymupdf`) for one directory entry,
as consumed by `Paper.load`: the file name, whether loading succeeded, and
the metadata and text the parser reports. -/
structure FileEntry where
  name : String
  loadOk : Bool
  title : String
  author : String
  year : String
  subject : String
  text : String
deriving DecidableEq

/-- Test `file_name.lower().endswith(".pdf")` from `papers_load`. -/
def lowerEndsWithPdf (name : List Char) : Bool :=
  (pyLower name).reverse.take 4 = ['f', 'd', 'p', '.']

/-- State of a fresh `Paper()` after a successful `Paper.load(file_path)`
with `file_path = os.path.join(path, file_name)`. -/
def loadPaper (dirPath : String) (f : FileEntry) : Paper :=
  { path := dirPath ++ "/" ++ f.name
    filename := f.name
    year := f.year
    title := f.title
    author := f.author
    subject := f.subject
    text := f.text }

/-- Per-paper body of the `papers_load` loop after a successful load: DOI
extraction followed by topic extraction.  The external keyword extractor
(`extract_keywords` with its fixed options) is a parameter returning
`(keyphrase, score)` pairs. -/
def processPaper (extractor : String → List (String × ℚ)) (p : Paper) : Paper :=
  let p := { p with doi := extractDOI p.text.data p.title.data }
  let extracted_topics := extractor p.text
  if extracted_topics.isEmpty then p
  else
    let topics := extracted_topics.map Prod.fst
    { p with topics := topics, main_keyphrase := topics.headD "" }

/-- Messages written through `output_writer` / `output_print`; each
constructor stands for one plain-text message site of the source. -/
inductive Msg where
  | errorNotPdf (name : String)
  | phrasingFile (name : String)
  | failedToLoad (name : String)
  | extractingDOILink
  | doiLinkExtracted
  | extractingTopics
  | topicsExtracted
  | unknownCommand (cmd : String)
  | pathNotExist (path : String)
  | pathNotDir (path : String)
  | noValidPdf
  | uploadingFile (name : String)
  | loadingComplete
  | noPapersFound
  | papersCount (n : Nat)
  | noTitleResults (v : String)
  | titleHeader (v : String)
  | noAuthorResults (v : String)
  | authorHeader (v : String)
  | noTopicResults (v : String)
  | topicHeader (v : String)
  | usageSearch (cmd : String)
  | unknownSearchType
  | noEmbeddingResults
  | semanticHeader (q : String)
deriving DecidableEq

/-- What the filesystem reports about the directory given to `add` /
`papers_load`: `os.path.exists`, `os.path.isdir`, and `os.listdir` together
with the PDF parser outcome for each listed entry. -/
structure PathInfo where
  pathExists : Bool
  isDir : Bool
  files : List FileEntry
deriving DecidableEq

/-- Loop body of `papers_load` over the directory listing, accumulating
loaded papers and progress messages in order. -/
def papers_load_go (extractor : String → List (String × ℚ)) (dirPath : String) :
    List FileEntry → List Paper × List Msg
  | [] => ([], [])
  | f :: fs =>
    let rest := papers_load_go extractor dirPath fs
    if lowerEndsWithPdf f.name.data = false then
      (rest.1, .errorNotPdf f.name :: rest.2)
    else if f.loadOk = false then
      (rest.1, .phrasingFile f.name :: .failedToLoad f.name :: rest.2)
    else
      (processPaper extractor (loadPaper dirPath f) :: rest.1,
        .phrasingFile f.name :: .extractingDOILink :: .doiLinkExtracted ::
          .extractingTopics :: .topicsExtracted :: rest.2)

/-- Function `papers_load(path, keyword_extractor, output_writer)`: empty
result if the path does not exist, otherwise the processed papers from the
directory listing. -/
def papers_load (extractor : String → List (String × ℚ)) (dirPath : String)
    (info : PathInfo) : List Paper × List Msg :=
  if info.pathExists = false then ([], [])
  else papers_load_go extractor dirPath info.files

/-! ## Graph store (`add_paper` in `command_line.py`)

The Neo4j store is modelled explicitly: Paper nodes keyed by filename,
Author and Topic nodes keyed by name, and the two relationship sets.  Each
`session.run` of a `MERGE` statement becomes one store operation with
Cypher `MERGE` / `ON CREATE SET` semantics. -/

/-- Properties a `MERGE (p:Paper {filename: ...}) ON CREATE SET ...` sets on
a freshly created Paper node. -/
structure PaperNode where
  title : String
  year : String
  embedding : List ℚ
  doi : String
deriving DecidableEq

/-- The graph database contents touched by this application. -/
structure GraphStore where
  papers : List (String × PaperNode)
  authors : List String
  topics : List String
  wrote : List (String × String)
  hasTopic : List (String × String)
deriving DecidableEq

/-- Cypher `MERGE (p:Paper {filename: $filename}) ON CREATE SET p.title =
..., p.year = ..., p.embedding = ..., p.doi = ...`: create the node with the
given properties only when no node with this filename exists. -/
def mergePaper (store : GraphStore) (filename : String) (node : PaperNode) : GraphStore :=
  if (store.papers.lookup filename).isSome then store
  else { store with papers := (filename, node) :: store.papers }

/-- Cypher `MERGE (a:Author {name: $name})`. -/
def mergeAuthor (store : GraphStore) (name : String) : GraphStore :=
  if name ∈ store.authors then store
  else { store with authors := name :: store.authors }

/-- Cypher `MATCH (p:Paper ...), (a:Author ...) MERGE (a)-[:WROTE]->(p)`:
adds the relationship when both endpoints exist and it is absent. -/
def mergeWrote (store : GraphStore) (name filename : String) : GraphStore :=
  if (store.papers.lookup filename).isSome ∧ name ∈ store.authors then
    if (name, filename) ∈ store.wrote then store
    else { store with wrote := (name, filename) :: store.wrote }
  else store

/-- Cypher `MERGE (t:Topic {name: $topic})`. -/
def mergeTopic (store : GraphStore) (topic : String) : GraphStore :=
  if topic ∈ store.topics then store
  else { store with topics := topic :: store.topics }

/-- Cypher `MATCH (p:Paper ...), (t:Topic ...) MERGE (p)-[:HAS_TOPIC]->(t)`. -/
def mergeHasTopic (store : GraphStore) (filename topic : String) : GraphStore :=
  if (store.papers.lookup filename).isSome ∧ topic ∈ store.topics then
    if (filename, topic) ∈ store.hasTopic then store
    else { store with hasTopic := (filename, topic) :: store.hasTopic }
  else store

/-- The Python dictionary handed to `add_paper`, split by value type:
string-valued keys and list-valued keys, each read with `dict.get` and a
default. -/
structure PaperDict where
  strs : List (String × String)
  lists : List (String × List String)
deriving DecidableEq

/-- Python `paper.get(key, default)` for string values. -/
def PaperDict.getS (d : PaperDict) (key dflt : String) : String :=
  (d.strs.lookup key).getD dflt

/-- Python `paper.get(key, default)` for list values. -/
def PaperDict.getL (d : PaperDict) (key : String) (dflt : List String) : List String :=
  (d.lists.lookup key).getD dflt

/-- Function `add_paper(session, sentence_transformer, paper)`: read the
dictionary fields with their defaults, encode the main keyphrase, and run
the Paper / Author / Topic merges in source order.  `encode` stands for
`sentence_transformer.encode(..., convert_to_numpy=True).tolist()`. -/
def add_paper (encode : String → List ℚ) (store : GraphStore) (paper : PaperDict) :
    GraphStore :=
  let filename := paper.getS "filename" "No filename"
  let title := paper.getS "title" "No title"
  let year := paper.getS "year" "No year"
  let authors := paper.getL "authors" ["No authors"]
  let topics := paper.getL "topics" ["No topics"]
  let doi := paper.getS "doi" "NO DOI"
  let main_keyphrase := paper.getS "main_keyphrase" "No keyphrase"
  let embedding := encode main_keyphrase
  let s1 := mergePaper store filename ⟨title, year, embedding, doi⟩
  let s2 := authors.foldl (fun st a => mergeWrote (mergeAuthor st a) a filename) s1
  topics.foldl (fun st t => mergeHasTopic (mergeTopic st t) filename t) s2

/-- The `paper_data` dictionary built inside `paper_loading_thread` in
`command_add_papers_by_users`; note the year is stored under the key
`"Year"` with a capital letter. -/
def paper_data (p : Paper) : PaperDict :=
  { strs := [("path", p.path), ("id", p.title), ("filename", p.filename),
             ("Year", p.year), ("title", p.title), ("text", p.text),
             ("main_keyphrase", p.main_keyphrase), ("doi", p.doi)]
    lists := [("authors", if p.author ≠ "" then [p.author] else []),
              ("topics", p.topics)] }

/-! ## Similarity search (`Analysis.find_papers_by_similarity`) -/

/-- One record returned by `query_search_by_semantic`: the Cypher query
returns Filename, Title, Author, Year, Embedding and DOI for every Paper
node whose embedding is not null. -/
structure DBRecord where
  filename : String
  title : String
  author : String
  year : String
  embedding : List ℚ
  doi : String
deriving DecidableEq

/-- One entry of the list built by `find_papers_by_similarity`:
`[Title, Author, DOI, similarity]`. -/
structure SimRow where
  title : String
  author : String
  doi : String
  similarity : ℚ
deriving DecidableEq

/-- Ordering used by `sorted(papers, key=lambda x: x[3], reverse=True)`:
descending similarity. -/
def simDesc (a b : SimRow) : Prop := b.similarity ≤ a.similarity

instance : DecidableRel simDesc := fun a b =>
  inferInstanceAs (Decidable (b.similarity ≤ a.similarity))

instance : IsTotal SimRow simDesc := ⟨fun a b => le_total b.similarity a.similarity⟩

instance : IsTrans SimRow simDesc := ⟨fun _ _ _ hab hbc => le_trans hbc hab⟩

/-- Loop of `find_papers_by_similarity`: skip records whose embedding is
falsy, compute the cosine similarity against the query vector, skip those
below the threshold, and collect `[Title, Author, DOI, similarity]` rows in
record order.  `sim` is the externally computed
`cosine_similarity(query_vec, paper_vector)[0][0]` as a function of the
stored embedding. -/
def collect_similar (sim : List ℚ → ℚ) (threshold : ℚ) : List DBRecord → List SimRow
  | [] => []
  | r :: rs =>
    if r.embedding = [] then collect_similar sim threshold rs
    else if sim r.embedding < threshold then collect_similar sim threshold rs
    else ⟨r.title, r.author, r.doi, sim r.embedding⟩ :: collect_similar sim threshold rs

/-- Method `Analysis.find_papers_by_similarity(driver, query_text, top_n,
threshold)`.  `encode` is the sentence transformer, `cossim` the cosine
similarity of two vectors, and `records` the result set of
`query_search_by_semantic`; the collected rows are stably sorted by
descending similarity and truncated to `top_n`. -/
def find_papers_by_similarity (encode : String → List ℚ) (cossim : List ℚ → List ℚ → ℚ)
    (records : List DBRecord) (query_text : String) (top_n : Nat) (threshold : ℚ) :
    List SimRow :=
  let query_vec := encode query_text
  (List.insertionSort simDesc (collect_similar (cossim query_vec) threshold records)).take top_n

/-- Statement of claim C1 in its own words: exactly the records whose
cosine similarity with the query embedding is at least the threshold,
sorted in descending order of similarity, truncated to at most `top_n`
entries. -/
def simsearchClaimed (encode : String → List ℚ) (cossim : List ℚ → List ℚ → ℚ)
    (records : List DBRecord) (query_text : String) (top_n : Nat) (threshold : ℚ) :
    List SimRow :=
  let query_vec := encode query_text
  (List.insertionSort simDesc
    ((records.filter (fun r => threshold ≤ cossim query_vec r.embedding)).map
      (fun r => ⟨r.title, r.author, r.doi, cossim query_vec r.embedding⟩))).take top_n

/-! ## Command layer (`CommandLineInterface`) -/

/-- One row returned by the keyword query layer (`query_list_papers`,
`query_search_by_title`, `query_search_by_author`, `query_search_by_topic`)
as read by `generate_table_str`. -/
structure QRow where
  title : String
  author : String
  year : String
  doi : String
deriving DecidableEq

/-- Output-area effects a command can have: clearing, writing a plain-text
message, rendering a table through `tabulate` (with its row payload), or a
call to `visualise_output`. -/
inductive Effect where
  | clear
  | write (m : Msg)
  | simTable (rows : List SimRow)
  | qTable (rows : List QRow)
  | visualise
deriving DecidableEq

/-- Handlers reachable from the dispatch table. -/
inductive CmdTag where
  | exitCmd
  | helpCmd
  | listPapers
  | search
  | simsearch
  | vsimsearch
  | addPapers
deriving DecidableEq

/-- The `self.commands` dictionary of `CommandLineInterface.__init__`, in
source order: long forms first, then shorthands. -/
def commands : List (String × CmdTag) :=
  [("exit", .exitCmd), ("help", .helpCmd), ("list", .listPapers),
   ("search", .search), ("vsearch", .search), ("simsearch", .simsearch),
   ("vsimsearch", .vsimsearch), ("add", .addPapers),
   ("e", .exitCmd), ("h", .helpCmd), ("lp", .listPapers), ("st", .search),
   ("sa", .search), ("sp", .search), ("ss", .simsearch), ("vsh", .search),
   ("vss", .vsimsearch), ("a", .addPapers)]

/-- Tokenisation in `command_handler`:
`self.input_field.text.strip().split(maxsplit=2)`. -/
def handlerTokens (text : String) : List String :=
  (pySplit 2 (pyStripWs text.data)).map String.mk

/-- Method `command_handler`: empty token list returns silently; a known
first token (lowercased) clears the output and dispatches to the mapped
handler with the token list; an unknown one clears the output and writes
the unknown-command message without dispatching. -/
def command_handler (text : String) : List Effect × Option (CmdTag × List String) :=
  match handlerTokens text with
  | [] => ([], none)
  | t0 :: _ =>
    let main_cmd := String.mk (pyLower t0.data)
    match commands.lookup main_cmd with
    | some c => ([.clear], some (c, handlerTokens text))
    | none => ([.clear, .write (.unknownCommand main_cmd)], none)

/-- Method `command_search_by_similarity` (`simsearch` / `ss`): build the
query text from the tokens, rank the stored records, and either report the
empty result set or render the result table. -/
def command_search_by_similarity (encode : String → List ℚ)
    (cossim : List ℚ → List ℚ → ℚ) (records : List DBRecord)
    (tokens : List String) : List Effect :=
  if tokens.length < 2 then
    [.write (.unknownCommand (String.intercalate " " tokens))]
  else
    let query_text :=
      if tokens.length = 2 then tokens.getD 1 ""
      else tokens.getD 1 "" ++ " " ++ tokens.getD 2 ""
    let results := find_papers_by_similarity encode cossim records query_text 15 (1/5)
    if results = [] then [.write .noEmbeddingResults]
    else [.write (.semanticHeader query_text), .simTable results]

/-- Method `command_search_by_vsemantic` (`vsimsearch` / `vss`): as
`command_search_by_similarity`, but the empty-result branch does not
return, so the header, the table of the empty result list and the
visualisation are still produced. -/
def command_search_by_vsemantic (encode : String → List ℚ)
    (cossim : List ℚ → List ℚ → ℚ) (records : List DBRecord)
    (tokens : List String) : List Effect :=
  if tokens.length < 2 then
    [.write (.unknownCommand (String.intercalate " " tokens))]
  else
    let query_text :=
      if tokens.length = 2 then tokens.getD 1 ""
      else tokens.getD 1 "" ++ " " ++ tokens.getD 2 ""
    let results := find_papers_by_similarity encode cossim records query_text 15 (1/5)
    (if results = [] then [.write .noEmbeddingResults] else []) ++
      [.write (.semanticHeader query_text), .simTable results, .visualise]

/-- Method `command_list_papers` (`list papers` / `lp`): reject any other
token sequence, report an empty database, or render the table of `rows`
(the result set of `query_list_papers`). -/
def command_list_papers (tokens : List String) (rows : List QRow) : List Effect :=
  if tokens ≠ ["lp"] ∧ tokens ≠ ["list", "papers"] then
    [.write (.unknownCommand (String.intercalate " " tokens))]
  else if rows = [] then [.write .noPapersFound]
  else [.write (.papersCount rows.length), .qTable rows]

/-- Method `command_search_by_title`: `rows` is the result set of
`query_search_by_title` for `title_value`. -/
def command_search_by_title (title_value : String) (visualsation : Bool)
    (rows : List QRow) : List Effect :=
  if rows = [] then [.write (.noTitleResults title_value)]
  else
    [.write (.titleHeader title_value), .qTable rows] ++
      (if visualsation then [.visualise] else [])

/-- Method `command_search_by_author`: `rows` is the result set of
`query_search_by_author` for `author_name`. -/
def command_search_by_author (author_name : String) (visualsation : Bool)
    (rows : List QRow) : List Effect :=
  if rows = [] then [.write (.noAuthorResults author_name)]
  else
    [.write (.authorHeader author_name), .qTable rows] ++
      (if visualsation then [.visualise] else [])

/-- Method `command_search_by_topic`: `rows` is the result set of
`query_search_by_topic` for `topic_val`. -/
def command_search_by_topic (topic_val : String) (visualsation : Bool)
    (rows : List QRow) : List Effect :=
  if rows = [] then [.write (.noTopicResults topic_val)]
  else
    [.write (.topicHeader topic_val), .qTable rows] ++
      (if visualsation then [.visualise] else [])

/-! ## The `add` command and its background loading thread -/

/-- A thread started with `threading.Thread(target=..., daemon=True).start()`:
its daemon flag and the state transformation its target performs on the
shared store when it runs. -/
structure ThreadSpec where
  daemon : Bool
  run : GraphStore → GraphStore × List Msg

/-- Result of running one command synchronously: the messages written on
the main path, the store after the main path (which performs no writes
itself), and the threads spawned. -/
structure CmdResult where
  output : List Msg
  store : GraphStore
  threads : List ThreadSpec

/-- Body of `paper_loading_thread` inside `command_add_papers_by_users`:
load the papers from the directory, report when none were found, and
otherwise write every paper into the store via `add_paper`. -/
def paper_loading_thread (encode : String → List ℚ)
    (extractor : String → List (String × ℚ)) (dirPath : String) (info : PathInfo)
    (store : GraphStore) : GraphStore × List Msg :=
  let loaded := papers_load extractor dirPath info
  let all_papers := loaded.1
  if all_papers = [] then (store, loaded.2 ++ [.noValidPdf])
  else
    let final := all_papers.foldl
      (fun acc p => (add_paper encode acc.1 (paper_data p),
        acc.2 ++ [.uploadingFile p.filename]))
      (store, loaded.2)
    (final.1, final.2 ++ [.loadingComplete])

/-- Method `command_add_papers_by_users` (`add` / `a`): validate the token
count and the path, then spawn one daemon thread whose target is
`paper_loading_thread`.  `fs` is the filesystem oracle consulted by
`os.path.exists` / `os.path.isdir` / `os.listdir`. -/
def command_add_papers_by_users (encode : String → List ℚ)
    (extractor : String → List (String × ℚ)) (tokens : List String)
    (fs : String → PathInfo) (store : GraphStore) : CmdResult :=
  if tokens.length ≤ 1 then
    { output := [.unknownCommand (String.intercalate " " tokens)], store := store,
      threads := [] }
  else
    let path := tokens.getD 1 ""
    if (fs path).pathExists = false then
      { output := [.pathNotExist path], store := store, threads := [] }
    else if (fs path).isDir = false then
      { output := [.pathNotDir path], store := store, threads := [] }
    else
      { output := [], store := store,
        threads := [⟨true, fun st => paper_loading_thread encode extractor path (fs path) st⟩] }

/-! ## Helper lemmas -/

theorem lookup_eq_none_of_not_mem {β : Type} {l : List (String × β)} {k : String}
    (h : k ∉ l.map Prod.fst) : l.lookup k = none := by
  induction l with
  | nil => rfl
  | cons p l ih =>
    have hk : k ≠ p.1 := by
      intro hkeq
      exact h (by simp [hkeq])
    have hrest : k ∉ l.map Prod.fst := fun hm => h (by simp [hm])
    cases p with
    | mk a b =>
      simp only [List.lookup]
      rw [beq_false_of_ne hk]
      exact ih hrest

/-! ## Theorems and witnesses for the claims -/

/-- C8: the input-limiting callback keeps the CLI input buffer at no more
than `max_character_limit = 100` characters: after every text change the
buffer text is truncated to its first 100 characters, so the length bound
holds at every observable state, and re-running the callback on its own
output changes nothing. -/
theorem input_limit_length_invariant (text : List Char) :
    (input_limit_length text).length ≤ max_character_limit ∧
      input_limit_length text = text.take max_character_limit ∧
      input_limit_length (input_limit_length text) = input_limit_length text := by
  unfold input_limit_length
  by_cases h : text.length > max_character_limit
  · rw [if_pos h]
    have hlen : (text.take max_character_limit).length ≤ max_character_limit :=
      List.length_take_le _ _
    refine ⟨hlen, rfl, ?_⟩
    rw [if_neg (by omega)]
  · rw [if_neg h]
    push_neg at h
    refine ⟨h, (List.take_of_length_le h).symm, ?_⟩
    rw [if_neg (by omega)]

/-- C6: the dispatch table accepts exactly the commands `list`, `search`,
`vsearch`, `simsearch`, `vsimsearch`, `add`, `help`, `exit` and the
shorthands `lp`, `st`, `sa`, `sp`, `vsh`, `ss`, `vss`, `a`, `h`, `e`; for
every input line whose lowercased first token is not one of these, the
handler clears the output and writes the unknown-command message without
dispatching to any command function. -/
theorem command_handler_unknown (text t0 : String) (rest : List String) :
    commands.map Prod.fst =
      ["exit", "help", "list", "search", "vsearch", "simsearch", "vsimsearch", "add",
       "e", "h", "lp", "st", "sa", "sp", "ss", "vsh", "vss", "a"] ∧
    (handlerTokens text = t0 :: rest →
      String.mk (pyLower t0.data) ∉ commands.map Prod.fst →
      command_handler text =
        ([.clear, .write (.unknownCommand (String.mk (pyLower t0.data)))], none)) := by
  refine ⟨rfl, fun htok hmem => ?_⟩
  unfold command_handler
  rw [htok]
  have hlook : commands.lookup (String.mk (pyLower t0.data)) = none :=
    lookup_eq_none_of_not_mem hmem
  simp only [hlook]

/-- Witness for C6 at the concrete input line `"foo bar"`. -/
theorem command_handler_unknown_witness :
    handlerTokens "foo bar" = ["foo", "bar"] ∧
      ("foo" : String) ∉ commands.map Prod.fst ∧
      command_handler "foo bar" = ([.clear, .write (.unknownCommand "foo")], none) :=
  ⟨by decide, by decide,
    (command_handler_unknown "foo bar" "foo" ["bar"]).2 (by decide) (by decide)⟩

theorem processPaper_fields (extractor : String → List (String × ℚ)) (p : Paper) :
    (processPaper extractor p).path = p.path ∧
    (processPaper extractor p).filename = p.filename ∧
    (processPaper extractor p).year = p.year ∧
    (processPaper extractor p).title = p.title ∧
    (processPaper extractor p).author = p.author ∧
    (processPaper extractor p).subject = p.subject ∧
    (processPaper extractor p).text = p.text ∧
    (processPaper extractor p).doi = extractDOI p.text.data p.title.data := by
  unfold processPaper
  dsimp only
  split <;> exact ⟨rfl, rfl, rfl, rfl, rfl, rfl, rfl, rfl⟩

/-- C10 (amended): `papers_load` sets the DOI to `https://doi.org/` followed
by the first substring of the text matching the pattern (capture group 1,
trailing punctuation stripped); if the text has no match the title is
searched with the same full pattern, but there the whole match is used: an
optional `doi:` marker is part of it, only lowercase `doi:` occurrences are
removed afterwards and surrounding whitespace stripped, so a non-lowercase
marker such as `DOI:` is retained in the stored link; if neither matches,
the DOI is `"NO PROVIDED DOI"`. -/
theorem papers_load_doi (extractor : String → List (String × ℚ)) (dirPath : String)
    (f : FileEntry) :
    (searchDOI f.text.data = none → searchDOI f.title.data = none →
      (processPaper extractor (loadPaper dirPath f)).doi = "NO PROVIDED DOI") ∧
    (∀ g0 g1, searchDOI f.text.data = some (g0, g1) →
      (processPaper extractor (loadPaper dirPath f)).doi =
        "https://doi.org/" ++ String.mk (pyRstrip rstripSet g1)) ∧
    (∀ g0 g1, searchDOI f.text.data = none → searchDOI f.title.data = some (g0, g1) →
      (processPaper extractor (loadPaper dirPath f)).doi =
        "https://doi.org/" ++
          String.mk (pyStripWs (replaceDoiMarker (pyRstrip rstripSet g0)))) := by
  have hdoi : (processPaper extractor (loadPaper dirPath f)).doi =
      extractDOI f.text.data f.title.data :=
    (processPaper_fields extractor (loadPaper dirPath f)).2.2.2.2.2.2.2
  refine ⟨fun h1 h2 => ?_, fun g0 g1 h1 => ?_, fun g0 g1 h1 h2 => ?_⟩ <;>
    rw [hdoi] <;> unfold extractDOI
  · rw [h1, h2]
  · rw [h1]
  · rw [h1, h2]

/-- Counterexample to C10 as stated: with empty text and the title
`DOI:10.1234/abc`, the code stores the uppercase marker inside the link,
while the claim predicts the bare matched DOI substring. -/
theorem papers_load_doi_counterexample :
    (processPaper (fun _ => [])
        (loadPaper "dir"
          { name := "a.pdf", loadOk := true, title := "DOI:10.1234/abc",
            author := "", year := "", subject := "", text := "" })).doi =
      "https://doi.org/DOI:10.1234/abc" ∧
    extractDOIClaimed "".data "DOI:10.1234/abc".data = "https://doi.org/10.1234/abc" ∧
    ("https://doi.org/DOI:10.1234/abc" : String) ≠ "https://doi.org/10.1234/abc" :=
  ⟨by decide, by decide, by decide⟩


/-- Witness for C10 (amended) on a text containing a lowercase `doi:`
marker followed by a DOI. -/
theorem papers_load_doi_witness :
    searchDOI "see doi: 10.1234/abc end".data =
      some ("doi: 10.1234/abc".data, "10.1234/abc".data) ∧
    (processPaper (fun _ => [])
        (loadPaper "dir"
          { name := "b.pdf", loadOk := true, title := "",
            author := "", year := "", subject := "",
            text := "see doi: 10.1234/abc end" })).doi =
      "https://doi.org/10.1234/abc" :=
  ⟨by decide,
    (papers_load_doi (fun _ => []) "dir"
        { name := "b.pdf", loadOk := true, title := "", author := "", year := "",
          subject := "", text := "see doi: 10.1234/abc end" }).2.1
      "doi: 10.1234/abc".data "10.1234/abc".data (by decide)⟩

theorem mergeAuthor_papers (st : GraphStore) (a : String) :
    (mergeAuthor st a).papers = st.papers := by
  unfold mergeAuthor; split <;> rfl

theorem mergeWrote_papers (st : GraphStore) (a fn : String) :
    (mergeWrote st a fn).papers = st.papers := by
  unfold mergeWrote
  split
  · split <;> rfl
  · rfl

theorem mergeTopic_papers (st : GraphStore) (t : String) :
    (mergeTopic st t).papers = st.papers := by
  unfold mergeTopic; split <;> rfl

theorem mergeHasTopic_papers (st : GraphStore) (fn t : String) :
    (mergeHasTopic st fn t).papers = st.papers := by
  unfold mergeHasTopic
  split
  · split <;> rfl
  · rfl

theorem authorsFold_papers (l : List String) (fn : String) (st : GraphStore) :
    (l.foldl (fun st a => mergeWrote (mergeAuthor st a) a fn) st).papers = st.papers := by
  induction l generalizing st with
  | nil => rfl
  | cons a l ih => rw [List.foldl_cons, ih, mergeWrote_papers, mergeAuthor_papers]

theorem topicsFold_papers (l : List String) (fn : String) (st : GraphStore) :
    (l.foldl (fun st t => mergeHasTopic (mergeTopic st t) fn t) st).papers = st.papers := by
  induction l generalizing st with
  | nil => rfl
  | cons t l ih => rw [List.foldl_cons, ih, mergeHasTopic_papers, mergeTopic_papers]

theorem add_paper_papers (encode : String → List ℚ) (store : GraphStore) (d : PaperDict) :
    (add_paper encode store d).papers =
      (mergePaper store (d.getS "filename" "No filename")
        ⟨d.getS "title" "No title", d.getS "year" "No year",
          encode (d.getS "main_keyphrase" "No keyphrase"), d.getS "doi" "NO DOI"⟩).papers := by
  unfold add_paper
  dsimp only
  rw [topicsFold_papers, authorsFold_papers]

/-- C2: Paper nodes are keyed by filename.  If a node with the dictionary's
filename already exists, `add_paper` leaves it untouched (its title, year,
embedding and doi fields keep their old values); if none exists, a node is
created carrying exactly the title, year, encoded-keyphrase embedding and
doi read from the dictionary. -/
theorem add_paper_create_if_absent (encode : String → List ℚ) (store : GraphStore)
    (d : PaperDict) :
    (∀ n, store.papers.lookup (d.getS "filename" "No filename") = some n →
      (add_paper encode store d).papers.lookup (d.getS "filename" "No filename") = some n) ∧
    (store.papers.lookup (d.getS "filename" "No filename") = none →
      (add_paper encode store d).papers.lookup (d.getS "filename" "No filename") =
        some ⟨d.getS "title" "No title", d.getS "year" "No year",
          encode (d.getS "main_keyphrase" "No keyphrase"), d.getS "doi" "NO DOI"⟩) := by
  constructor
  · intro n h
    rw [add_paper_papers]
    unfold mergePaper
    rw [if_pos (by rw [h]; rfl)]
    exact h
  · intro h
    rw [add_paper_papers]
    unfold mergePaper
    rw [if_neg (by rw [h]; simp)]
    simp [List.lookup]

/-- Witness for C2: an existing node survives an `add_paper` with fresh
data, and on an empty store the node is created with the given fields. -/
theorem add_paper_create_if_absent_witness :
    (add_paper (fun _ => [1])
        { papers := [("f.pdf", ⟨"Old", "1999", [7], "olddoi"⟩)], authors := [],
          topics := [], wrote := [], hasTopic := [] }
        { strs := [("filename", "f.pdf"), ("title", "New"), ("doi", "newdoi")],
          lists := [] }).papers.lookup "f.pdf" = some ⟨"Old", "1999", [7], "olddoi"⟩ ∧
    (add_paper (fun _ => [1])
        { papers := [], authors := [], topics := [], wrote := [], hasTopic := [] }
        { strs := [("filename", "f.pdf"), ("title", "New"), ("doi", "newdoi")],
          lists := [] }).papers.lookup "f.pdf" =
      some ⟨"New", "No year", [1], "newdoi"⟩ :=
  ⟨(add_paper_create_if_absent (fun _ => [1])
      { papers := [("f.pdf", ⟨"Old", "1999", [7], "olddoi"⟩)], authors := [],
        topics := [], wrote := [], hasTopic := [] }
      { strs := [("filename", "f.pdf"), ("title", "New"), ("doi", "newdoi")],
        lists := [] }).1 ⟨"Old", "1999", [7], "olddoi"⟩ (by decide),
   (add_paper_create_if_absent (fun _ => [1])
      { papers := [], authors := [], topics := [], wrote := [], hasTopic := [] }
      { strs := [("filename", "f.pdf"), ("title", "New"), ("doi", "newdoi")],
        lists := [] }).2 (by decide)⟩

theorem paper_data_gets (p : Paper) :
    (paper_data p).getS "filename" "No filename" = p.filename ∧
    (paper_data p).getS "title" "No title" = p.title ∧
    (paper_data p).getS "year" "No year" = "No year" ∧
    (paper_data p).getS "doi" "NO DOI" = p.doi ∧
    (paper_data p).getS "main_keyphrase" "No keyphrase" = p.main_keyphrase ∧
    (paper_data p).getL "topics" ["No topics"] = p.topics ∧
    (paper_data p).getL "authors" ["No authors"] =
      (if p.author ≠ "" then [p.author] else []) :=
  ⟨rfl, rfl, rfl, rfl, rfl, rfl, rfl⟩

theorem add_paper_paper_data (encode : String → List ℚ) (store : GraphStore) (p : Paper)
    (habs : store.papers.lookup p.filename = none) :
    (add_paper encode store (paper_data p)).papers.lookup p.filename =
      some ⟨p.title, "No year", encode p.main_keyphrase, p.doi⟩ := by
  rw [add_paper_papers]
  unfold mergePaper
  rw [(paper_data_gets p).1, if_neg (by rw [habs]; simp),
    (paper_data_gets p).2.1, (paper_data_gets p).2.2.1,
    (paper_data_gets p).2.2.2.1, (paper_data_gets p).2.2.2.2.1]
  simp [List.lookup]

/-- C3 (amended): a Paper entity created during ingestion carries path,
filename, title, author, year, subject, full text, topic list, primary
keyphrase and DOI in memory, but what is persisted on its Paper node
(keyed by filename) is only title, year, embedding and DOI — with the
embedding computed from the primary keyphrase, with the year always the
default `"No year"` because the ingestion dictionary stores the year under
the key `"Year"` while `add_paper` reads the key `"year"`, and with
authors and topics going to separate Author / Topic nodes; path, subject,
full text and keyphrase are not persisted. -/
theorem ingest_persisted_fields (encode : String → List ℚ)
    (extractor : String → List (String × ℚ)) (dirPath : String) (f : FileEntry)
    (store : GraphStore)
    (habs : store.papers.lookup f.name = none) :
    (loadPaper dirPath f).path = dirPath ++ "/" ++ f.name ∧
    (loadPaper dirPath f).filename = f.name ∧
    (loadPaper dirPath f).title = f.title ∧
    (loadPaper dirPath f).author = f.author ∧
    (loadPaper dirPath f).year = f.year ∧
    (loadPaper dirPath f).subject = f.subject ∧
    (loadPaper dirPath f).text = f.text ∧
    (add_paper encode store
        (paper_data (processPaper extractor (loadPaper dirPath f)))).papers.lookup f.name =
      some ⟨(processPaper extractor (loadPaper dirPath f)).title, "No year",
        encode (processPaper extractor (loadPaper dirPath f)).main_keyphrase,
        (processPaper extractor (loadPaper dirPath f)).doi⟩ := by
  have hfn : (processPaper extractor (loadPaper dirPath f)).filename = f.name :=
    (processPaper_fields extractor (loadPaper dirPath f)).2.1
  refine ⟨rfl, rfl, rfl, rfl, rfl, rfl, rfl, ?_⟩
  rw [← hfn]
  exact add_paper_paper_data encode store (processPaper extractor (loadPaper dirPath f))
    (by rw [hfn]; exact habs)

/-- Counterexample to C3 as stated: at a concrete ingestion the paper's
year attribute is `"2020"`, yet the persisted node's year is the default
`"No year"`, so the paper's attributes are not what is persisted. -/
theorem ingest_persisted_fields_counterexample :
    ((add_paper (fun _ => [0])
        { papers := [], authors := [], topics := [], wrote := [], hasTopic := [] }
        (paper_data (processPaper (fun _ => [("kp", 1)])
          (loadPaper "dir"
            { name := "a.pdf", loadOk := true, title := "T1", author := "Au",
              year := "2020", subject := "Sub", text := "T" })))).papers.lookup
        "a.pdf").map PaperNode.year = some "No year" ∧
    (processPaper (fun _ => [("kp", 1)])
        (loadPaper "dir"
          { name := "a.pdf", loadOk := true, title := "T1", author := "Au",
            year := "2020", subject := "Sub", text := "T" })).year = "2020" ∧
    some ("No year" : String) ≠ some "2020" :=
  ⟨by decide, by decide, by decide⟩

/-- Witness for C3 (amended) at a concrete ingestion into an empty store. -/
theorem ingest_persisted_fields_witness :
    (({ papers := [], authors := [], topics := [], wrote := [],
        hasTopic := [] } : GraphStore).papers.lookup "a.pdf" = none) ∧
    (add_paper (fun _ => [0])
        { papers := [], authors := [], topics := [], wrote := [], hasTopic := [] }
        (paper_data (processPaper (fun _ => [("kp", 1)])
          (loadPaper "dir"
            { name := "a.pdf", loadOk := true, title := "T1", author := "Au",
              year := "2020", subject := "Sub", text := "T" })))).papers.lookup "a.pdf" =
      some ⟨"T1", "No year", [0], "NO PROVIDED DOI"⟩ :=
  ⟨by decide,
    (ingest_persisted_fields (fun _ => [0]) (fun _ => [("kp", 1)]) "dir"
        { name := "a.pdf", loadOk := true, title := "T1", author := "Au",
          year := "2020", subject := "Sub", text := "T" }
        { papers := [], authors := [], topics := [], wrote := [], hasTopic := [] }
        (by decide)).2.2.2.2.2.2.2⟩

/-- C9: the embedding persisted for a paper is computed by encoding only
the paper's primary keyphrase (never its full text), and when keyword
extraction yields no keyphrases the keyphrase keeps the default value
`"No keyphrase"`, so the persisted embedding is the encoding of that
literal string. -/
theorem embedding_encodes_keyphrase (encode : String → List ℚ) :
    (∀ (store : GraphStore) (p : Paper), store.papers.lookup p.filename = none →
      ((add_paper encode store (paper_data p)).papers.lookup p.filename).map
          PaperNode.embedding = some (encode p.main_keyphrase)) ∧
    (∀ (extractor : String → List (String × ℚ)) (dirPath : String) (f : FileEntry),
      extractor f.text = [] →
      (processPaper extractor (loadPaper dirPath f)).main_keyphrase = "No keyphrase") := by
  constructor
  · intro store p habs
    rw [add_paper_paper_data encode store p habs]
    rfl
  · intro extractor dirPath f hext
    simp only [processPaper, loadPaper]
    rw [hext]
    rfl

/-- Witness for C9: with an extractor returning no keyphrases, the node
persisted for a concrete paper carries the encoding of `"No keyphrase"`. -/
theorem embedding_encodes_keyphrase_witness :
    (({ papers := [], authors := [], topics := [], wrote := [],
        hasTopic := [] } : GraphStore).papers.lookup "c.pdf" = none) ∧
    ((fun _ => []) : String → List (String × ℚ)) "body text" = [] ∧
    (processPaper (fun _ => [])
        (loadPaper "dir"
          { name := "c.pdf", loadOk := true, title := "T", author := "A",
            year := "2021", subject := "S", text := "body text" })).main_keyphrase =
      "No keyphrase" ∧
    ((add_paper (fun s => [(s.length : ℚ)])
        { papers := [], authors := [], topics := [], wrote := [], hasTopic := [] }
        (paper_data (processPaper (fun _ => [])
          (loadPaper "dir"
            { name := "c.pdf", loadOk := true, title := "T", author := "A",
              year := "2021", subject := "S", text := "body text" })))).papers.lookup
        "c.pdf").map PaperNode.embedding = some [(12 : ℚ)] :=
  ⟨by decide, rfl,
    (embedding_encodes_keyphrase (fun _ => [])).2 (fun _ => []) "dir"
      { name := "c.pdf", loadOk := true, title := "T", author := "A",
        year := "2021", subject := "S", text := "body text" } rfl,
    (embedding_encodes_keyphrase (fun s => [(s.length : ℚ)])).1
      { papers := [], authors := [], topics := [], wrote := [], hasTopic := [] }
      (processPaper (fun _ => [])
        (loadPaper "dir"
          { name := "c.pdf", loadOk := true, title := "T", author := "A",
            year := "2021", subject := "S", text := "body text" }))
      (by decide)⟩

/-- C5: when the path given to the `add` command does not exist or is not a
directory, the command reports the matching plain-text error message,
spawns no loading thread, and leaves the store unchanged. -/
theorem add_command_invalid_path (encode : String → List ℚ)
    (extractor : String → List (String × ℚ)) (tokens : List String)
    (fs : String → PathInfo) (store : GraphStore)
    (hlen : 1 < tokens.length)
    (hbad : (fs (tokens.getD 1 "")).pathExists = false ∨
      (fs (tokens.getD 1 "")).isDir = false) :
    (command_add_papers_by_users encode extractor tokens fs store).store = store ∧
    (command_add_papers_by_users encode extractor tokens fs store).threads = [] ∧
    (command_add_papers_by_users encode extractor tokens fs store).output =
      (if (fs (tokens.getD 1 "")).pathExists = false then [.pathNotExist (tokens.getD 1 "")]
       else [.pathNotDir (tokens.getD 1 "")]) := by
  unfold command_add_papers_by_users
  rw [if_neg (Nat.not_le.mpr hlen)]
  dsimp only
  by_cases hex : (fs (tokens.getD 1 "")).pathExists = false
  · rw [if_pos hex, if_pos hex]
    exact ⟨rfl, rfl, rfl⟩
  · have hdir : (fs (tokens.getD 1 "")).isDir = false := hbad.resolve_left hex
    rw [if_neg hex, if_pos hdir, if_neg hex]
    exact ⟨rfl, rfl, rfl⟩

/-- Witness for C5 with a filesystem on which the path does not exist. -/
theorem add_command_invalid_path_witness :
    (1 < (["add", "p"] : List String).length) ∧
    (command_add_papers_by_users (fun _ => []) (fun _ => []) ["add", "p"]
        (fun _ => { pathExists := false, isDir := false, files := [] })
        { papers := [], authors := [], topics := [], wrote := [], hasTopic := [] }).store =
      { papers := [], authors := [], topics := [], wrote := [], hasTopic := [] } ∧
    (command_add_papers_by_users (fun _ => []) (fun _ => []) ["add", "p"]
        (fun _ => { pathExists := false, isDir := false, files := [] })
        { papers := [], authors := [], topics := [], wrote := [],
          hasTopic := [] }).threads = [] ∧
    (command_add_papers_by_users (fun _ => []) (fun _ => []) ["add", "p"]
        (fun _ => { pathExists := false, isDir := false, files := [] })
        { papers := [], authors := [], topics := [], wrote := [],
          hasTopic := [] }).output = [.pathNotExist "p"] :=
  ⟨by decide,
    (add_command_invalid_path (fun _ => []) (fun _ => []) ["add", "p"]
        (fun _ => { pathExists := false, isDir := false, files := [] })
        { papers := [], authors := [], topics := [], wrote := [], hasTopic := [] }
        (by decide) (Or.inl rfl)).1,
    (add_command_invalid_path (fun _ => []) (fun _ => []) ["add", "p"]
        (fun _ => { pathExists := false, isDir := false, files := [] })
        { papers := [], authors := [], topics := [], wrote := [], hasTopic := [] }
        (by decide) (Or.inl rfl)).2.1,
    (add_command_invalid_path (fun _ => []) (fun _ => []) ["add", "p"]
        (fun _ => { pathExists := false, isDir := false, files := [] })
        { papers := [], authors := [], topics := [], wrote := [], hasTopic := [] }
        (by decide) (Or.inl rfl)).2.2⟩

/-- C7: a successful `add` command spawns exactly one thread; it is a
daemon thread, its target is the `paper_loading_thread` body performing the
loading and all database writes for the command against the shared store,
and the synchronous path of the command writes nothing to the store. -/
theorem add_command_spawns_one_thread (encode : String → List ℚ)
    (extractor : String → List (String × ℚ)) (tokens : List String)
    (fs : String → PathInfo) (store : GraphStore)
    (hlen : 1 < tokens.length)
    (hex : (fs (tokens.getD 1 "")).pathExists = true)
    (hdir : (fs (tokens.getD 1 "")).isDir = true) :
    (command_add_papers_by_users encode extractor tokens fs store).store = store ∧
    (command_add_papers_by_users encode extractor tokens fs store).threads.map
        ThreadSpec.daemon = [true] ∧
    (command_add_papers_by_users encode extractor tokens fs store).threads.map
        ThreadSpec.run =
      [paper_loading_thread encode extractor (tokens.getD 1 "") (fs (tokens.getD 1 ""))] := by
  unfold command_add_papers_by_users
  rw [if_neg (Nat.not_le.mpr hlen)]
  dsimp only
  rw [hex, hdir]
  exact ⟨rfl, rfl, rfl⟩

/-- Witness for C7 on a concrete valid directory. -/
theorem add_command_spawns_one_thread_witness :
    (command_add_papers_by_users (fun _ => []) (fun _ => []) ["add", "p"]
        (fun _ => { pathExists := true, isDir := true, files := [] })
        { papers := [], authors := [], topics := [], wrote := [], hasTopic := [] }).store =
      { papers := [], authors := [], topics := [], wrote := [], hasTopic := [] } ∧
    (command_add_papers_by_users (fun _ => []) (fun _ => []) ["add", "p"]
        (fun _ => { pathExists := true, isDir := true, files := [] })
        { papers := [], authors := [], topics := [], wrote := [],
          hasTopic := [] }).threads.map ThreadSpec.daemon = [true] ∧
    (command_add_papers_by_users (fun _ => []) (fun _ => []) ["add", "p"]
        (fun _ => { pathExists := true, isDir := true, files := [] })
        { papers := [], authors := [], topics := [], wrote := [],
          hasTopic := [] }).threads.map ThreadSpec.run =
      [paper_loading_thread (fun _ => []) (fun _ => []) "p"
        { pathExists := true, isDir := true, files := [] }] :=
  ⟨(add_command_spawns_one_thread (fun _ => []) (fun _ => []) ["add", "p"]
        (fun _ => { pathExists := true, isDir := true, files := [] })
        { papers := [], authors := [], topics := [], wrote := [], hasTopic := [] }
        (by decide) rfl rfl).1,
    (add_command_spawns_one_thread (fun _ => []) (fun _ => []) ["add", "p"]
        (fun _ => { pathExists := true, isDir := true, files := [] })
        { papers := [], authors := [], topics := [], wrote := [], hasTopic := [] }
        (by decide) rfl rfl).2.1,
    (add_command_spawns_one_thread (fun _ => []) (fun _ => []) ["add", "p"]
        (fun _ => { pathExists := true, isDir := true, files := [] })
        { papers := [], authors := [], topics := [], wrote := [], hasTopic := [] }
        (by decide) rfl rfl).2.2⟩

/-- C4: evaluation at the failing input.  With no stored records the
`vsimsearch` handler writes the no-results message but, lacking the early
return its `simsearch` sibling has, still renders the results header, the
table of the empty result list and the visualisation; the other search
commands stop after their no-results message. -/
theorem vsimsearch_empty_still_renders :
    command_search_by_vsemantic (fun _ => []) (fun _ _ => 0) [] ["vss", "q"] =
      [.write .noEmbeddingResults, .write (.semanticHeader "q"), .simTable [],
        .visualise] ∧
    command_search_by_similarity (fun _ => []) (fun _ _ => 0) [] ["ss", "q"] =
      [.write .noEmbeddingResults] ∧
    command_list_papers ["lp"] [] = [.write .noPapersFound] ∧
    command_search_by_title "t" true [] = [.write (.noTitleResults "t")] ∧
    command_search_by_author "a" true [] = [.write (.noAuthorResults "a")] ∧
    command_search_by_topic "p" true [] = [.write (.noTopicResults "p")] :=
  ⟨by decide, by decide, by decide, by decide, by decide, by decide⟩

theorem collect_similar_eq (sim : List ℚ → ℚ) (t : ℚ) (records : List DBRecord)
    (h : ∀ r ∈ records, r.embedding ≠ []) :
    collect_similar sim t records =
      (records.filter (fun r => t ≤ sim r.embedding)).map
        (fun r => ⟨r.title, r.author, r.doi, sim r.embedding⟩) := by
  induction records with
  | nil => rfl
  | cons r rs ih =>
    have hr : r.embedding ≠ [] := h r (List.mem_cons_self r rs)
    have hrs : ∀ x ∈ rs, x.embedding ≠ [] := fun x hx => h x (List.mem_cons_of_mem r hx)
    unfold collect_similar
    rw [if_neg hr, List.filter_cons]
    by_cases hs : sim r.embedding < t
    · rw [if_pos hs, if_neg (by simpa using not_le.mpr hs), ih hrs]
    · rw [if_neg hs, if_pos (by simpa using not_lt.mp hs), List.map_cons, ih hrs]

/-- C1: for every query text, stored record set (with the stored embeddings
nonempty), threshold and limit, `find_papers_by_similarity` returns exactly
the records whose cosine similarity with the query embedding is at least
the threshold, sorted in descending order of similarity and truncated to
at most `top_n` entries (the `simsearch` command invokes it with
`top_n = 15`, `threshold = 0.2`). -/
theorem find_papers_by_similarity_spec (encode : String → List ℚ)
    (cossim : List ℚ → List ℚ → ℚ) (records : List DBRecord) (query_text : String)
    (top_n : Nat) (threshold : ℚ)
    (h : records.all (fun r => !r.embedding.isEmpty) = true) :
    find_papers_by_similarity encode cossim records query_text top_n threshold =
      simsearchClaimed encode cossim records query_text top_n threshold ∧
    (find_papers_by_similarity encode cossim records query_text top_n threshold).length
      ≤ top_n ∧
    List.Sorted simDesc
      (find_papers_by_similarity encode cossim records query_text top_n threshold) := by
  have hne : ∀ r ∈ records, r.embedding ≠ [] := by
    intro r hr
    have := List.all_eq_true.mp h r hr
    simpa [List.isEmpty_iff] using this
  refine ⟨?_, ?_, ?_⟩
  · simp only [find_papers_by_similarity, simsearchClaimed]
    rw [collect_similar_eq (cossim (encode query_text)) threshold records hne]
  · exact List.length_take_le _ _
  · exact List.Pairwise.sublist (List.take_sublist _ _)
      (List.sorted_insertionSort simDesc _)

/-- Witness for C1 with three stored records, one of them below the
threshold; the similarity oracle reads the head of the stored vector. -/
theorem find_papers_by_similarity_spec_witness :
    (([⟨"f1", "A", "a1", "2020", [1], "d1"⟩, ⟨"f2", "B", "a2", "2021", [3], "d2"⟩,
        ⟨"f3", "C", "a3", "2022", [2], "d3"⟩] : List DBRecord).all
      (fun r => !r.embedding.isEmpty)) = true ∧
    find_papers_by_similarity (fun _ => []) (fun _ v => v.headD 0)
        [⟨"f1", "A", "a1", "2020", [1], "d1"⟩, ⟨"f2", "B", "a2", "2021", [3], "d2"⟩,
          ⟨"f3", "C", "a3", "2022", [2], "d3"⟩] "q" 15 2 =
      simsearchClaimed (fun _ => []) (fun _ v => v.headD 0)
        [⟨"f1", "A", "a1", "2020", [1], "d1"⟩, ⟨"f2", "B", "a2", "2021", [3], "d2"⟩,
          ⟨"f3", "C", "a3", "2022", [2], "d3"⟩] "q" 15 2 ∧
    find_papers_by_similarity (fun _ => []) (fun _ v => v.headD 0)
        [⟨"f1", "A", "a1", "2020", [1], "d1"⟩, ⟨"f2", "B", "a2", "2021", [3], "d2"⟩,
          ⟨"f3", "C", "a3", "2022", [2], "d3"⟩] "q" 15 2 =
      [⟨"B", "a2", "d2", 3⟩, ⟨"C", "a3", "d3", 2⟩] :=
  ⟨by decide,
    (find_papers_by_similarity_spec (fun _ => []) (fun _ v => v.headD 0)
        [⟨"f1", "A", "a1", "2020", [1], "d1"⟩, ⟨"f2", "B", "a2", "2021", [3], "d2"⟩,
          ⟨"f3", "C", "a3", "2022", [2], "d3"⟩] "q" 15 2 (by decide)).1,
    by decide⟩
